import Mathlib

/-!
Shallow embedding of the `msft_stock_price` Airflow DAG (src/msft.py) and a
verification of its window-filter, transform and warehouse-load stages.

Conventions used throughout:
* CPython `datetime` values are modelled as microseconds on a proleptic
  Gregorian timeline (`Int`), where a calendar date `d` corresponds to
  `toOrdinal d * USEC_PER_DAY` (midnight).  `datetime.today()` is an arbitrary
  such timestamp, with its time-of-day component intact.
* `datetime.strptime(s, "%Y-%m-%d")` is modelled by `parseDate`, which follows
  CPython `_strptime`: `%Y` is exactly four digits, `%m`/`%d` are one or two
  digits in range, the whole string must be consumed, and the resulting
  calendar date must be valid (month length, year >= 1).  An invalid string
  raises `ValueError` in Python; here `parseDate` returns `none` and callers
  propagate the failure through `Except`.
* Network calls (`requests.get(...)` / `.json()`) are modelled by passing the
  response, resp. the parsed payload, as an explicit argument.
-/

set_option maxRecDepth 8192

deriving instance DecidableEq for Except

/-- Leap-year test, as in CPython `datetime._is_leap`. -/
def isLeapYear (y : Nat) : Bool :=
  y % 4 == 0 && (y % 100 != 0 || y % 400 == 0)

/-- Number of days in month `m` of year `y` (CPython `datetime._days_in_month`). -/
def daysInMonth (y m : Nat) : Nat :=
  if m = 2 then (if isLeapYear y then 29 else 28)
  else if m = 4 ∨ m = 6 ∨ m = 9 ∨ m = 11 then 30
  else 31

/-- Days in all years preceding year `y` (CPython `datetime._days_before_year`). -/
def daysBeforeYear (y : Nat) : Nat :=
  365 * (y - 1) + (y - 1) / 4 - (y - 1) / 100 + (y - 1) / 400

/-- Days in year `y` preceding month `m` (CPython `datetime._days_before_month`). -/
def daysBeforeMonth (y m : Nat) : Nat :=
  ((List.range (m - 1)).map (fun i => daysInMonth y (i + 1))).sum

/-- Proleptic Gregorian ordinal of the date `y-m-d`; `toOrdinal 1 1 1 = 1`,
exactly CPython `date.toordinal()`. -/
def toOrdinal (y m d : Nat) : Nat :=
  daysBeforeYear y + daysBeforeMonth y m + d

/-- Value of an all-digit character list (callers check `Char.isDigit` first). -/
def digitsToNat (l : List Char) : Nat :=
  l.foldl (fun a c => a * 10 + (c.toNat - 48)) 0

/-- Splits a character list on `-` (the behaviour of splitting a string on a
single-character separator: `n` separators yield `n + 1` fields, possibly
empty). -/
def splitDash : List Char → List (List Char)
  | [] => [[]]
  | c :: rest =>
    if c = '-' then [] :: splitDash rest
    else
      match splitDash rest with
      | g :: gs => (c :: g) :: gs
      | [] => [[c]]

/-- Model of `datetime.strptime(s, "%Y-%m-%d")` (src/msft.py line 63): returns
the proleptic ordinal of the parsed date, or `none` where Python raises
`ValueError`.  Follows CPython `_strptime`: `%Y` matches exactly four digits,
`%m` and `%d` match one or two digits with values 1..12 resp. 1..31, the
separators are literal `-`, the whole string must match, and constructing the
`datetime` additionally requires `year >= 1` and `day <= daysInMonth`. -/
def parseDate (s : String) : Option Nat :=
  match splitDash s.data with
  | [ys, ms, ds] =>
    if ys.length == 4 && ys.all Char.isDigit
        && (ms.length == 1 || ms.length == 2) && ms.all Char.isDigit
        && (ds.length == 1 || ds.length == 2) && ds.all Char.isDigit then
      let y := digitsToNat ys
      let m := digitsToNat ms
      let d := digitsToNat ds
      if 1 ≤ y ∧ 1 ≤ m ∧ m ≤ 12 ∧ 1 ≤ d ∧ d ≤ daysInMonth y m then
        some (toOrdinal y m d)
      else none
    else none
  | _ => none

/-- Microseconds per day; `timedelta(days=90)` is `90 * USEC_PER_DAY`. -/
def USEC_PER_DAY : Int := 86400000000

/-- The inner mapping of the API payload: the six numbered OHLCV fields of one
day of `"Time Series (Daily)"` (all JSON strings).  `opn` stands for the
`"1. open"` field (`open` is a Lean keyword). -/
structure DailyRaw where
  opn : String
  high : String
  low : String
  close : String
  volume : String
deriving DecidableEq, Repr

/-- The dictionary built at src/msft.py lines 66-74: date, the five OHLCV
strings copied from the series entry, and the symbol tag. -/
structure PriceData where
  date : String
  opn : String
  high : String
  low : String
  close : String
  volume : String
  symbol : String
deriving DecidableEq, Repr

/-- The JSON payload returned by the Alpha Vantage endpoint.  `tsDaily` models
the `"Time Series (Daily)"` key: `none` when absent, otherwise the ordered
key/value entries of the JSON object (keys are unique in a JSON object /
Python dict; the list is its iteration order). -/
structure ApiData where
  tsDaily : Option (List (String × DailyRaw))
deriving DecidableEq, Repr

/-- An HTTP response as seen by the code: its status code and the outcome of
`response.json()` (`.error` models a raised `JSONDecodeError`). -/
structure HTTPResponse where
  status : Nat
  jsonBody : Except String ApiData

/-- Task 1, `extract` (src/msft.py lines 30-46): formats the URL, performs
`requests.get(url)` and returns `response.json()`.  `requests.get` does not
raise on a non-2xx status, the code never consults `response.status_code` and
never calls `raise_for_status`, so the only failure is a JSON decode error.
The network call is modelled by taking the response as the argument. -/
def extract (response : HTTPResponse) : Except String ApiData :=
  response.jsonBody

/-- The `price_data` dictionary built at src/msft.py lines 66-74 for a kept
series entry. -/
def mkPriceData (d : String) (bar : DailyRaw) (symbol : String) : PriceData :=
  { date := d, opn := bar.opn, high := bar.high, low := bar.low,
    close := bar.close, volume := bar.volume, symbol := symbol }

/-- The loop of src/msft.py lines 62-75 over the series entries: parse each
date key with `strptime` (a failure raises `ValueError`, modelled as
`.error key`), keep the entry when `date_obj >= ninety_days_ago` (`cutoff` is
the timestamp `today - 90 days`, in microseconds; `date_obj` is midnight of
the parsed date), and append the built dictionary in iteration order. -/
def filterGo (symbol : String) (cutoff : Int) :
    List (String × DailyRaw) → Except String (List PriceData)
  | [] => .ok []
  | (d, bar) :: rest =>
    match parseDate d with
    | none => .error d
    | some n =>
      if (n : Int) * USEC_PER_DAY ≥ cutoff then
        (filterGo symbol cutoff rest).map (fun rs => mkPriceData d bar symbol :: rs)
      else
        filterGo symbol cutoff rest

/-- Task 2, `return_last_90d_price` (src/msft.py lines 49-77): fetches the
daily series (modelled by the `data` argument), computes
`ninety_days_ago = datetime.today() - timedelta(days=90)` — note that
`datetime.today()` carries the current time-of-day — and filters the entries
of `data.get("Time Series (Daily)", {})`.  `today` is the value of
`datetime.today()` in microseconds. -/
def return_last_90d_price (symbol : String) (data : ApiData) (today : Int) :
    Except String (List PriceData) :=
  filterGo symbol (today - 90 * USEC_PER_DAY) (data.tsDaily.getD [])

/-- The window predicate actually implemented by the loop: the entry's date
parses and its midnight timestamp is `>= cutoff`. -/
def windowKeep (cutoff : Int) (p : String × DailyRaw) : Bool :=
  match parseDate p.1 with
  | some n => decide ((n : Int) * USEC_PER_DAY ≥ cutoff)
  | none => false

/-- Task 3, `transform` (src/msft.py lines 80-89): copies every entry of its
input into `processed_data`, prints it, and returns it.  The print has no
effect on the returned value and is omitted. -/
def transform {α : Type} (stock_data : List α) : List α :=
  stock_data.foldl (fun acc entry => acc ++ [entry]) []

/-- State of the warehouse as seen through one Snowflake session.
`committed` is the durable contents of the target table (`none`: the table
does not exist); `pending` is the session's view including uncommitted DML of
the open transaction.  Outside a transaction the two coincide. -/
structure DB where
  committed : Option (List PriceData)
  pending : Option (List PriceData)
deriving DecidableEq, Repr

/-- Effect of `CREATE OR REPLACE TABLE` (src/msft.py lines 109-119).  In
Snowflake a DDL statement implicitly commits the current transaction and runs
in its own transaction, so the replacement — dropping any previous contents
and creating the table empty — is durable immediately and is not undone by a
later `conn.rollback()`. -/
def createOrReplaceTable (_db : DB) : DB :=
  { committed := some [], pending := some [] }

/-- Effect of one `INSERT` (src/msft.py line 138) inside the open
transaction: the row is staged in the session view, not yet committed. -/
def insertRow (r : PriceData) (db : DB) : DB :=
  { db with pending := db.pending.map (fun t => t ++ [r]) }

/-- Effect of `conn.commit()` (src/msft.py line 140). -/
def commitOp (db : DB) : DB :=
  { db with committed := db.pending }

/-- Effect of `conn.rollback()` (src/msft.py line 144): discards the staged
DML, reverting the session view to the committed state. -/
def rollbackOp (db : DB) : DB :=
  { db with pending := db.committed }

/-- Modelled from the spec: the `LoadReport{rowsLoaded, tableName}` result
that §4.4 of the spec says `load` returns.  The source `load` function never
constructs such a value — it returns `None` on every path — so this structure
exists only to compare the spec's contract with the code. -/
structure Report where
  rowsLoaded : Nat
  tableName : String
deriving DecidableEq, Repr

/-- Observable outcome of one call to `load`: the warehouse state on exit,
the messages printed, the SQL statement texts sent through `cur.execute`, in
order, whether a connection was acquired, and the Python return value
(always `None`, modelled as `none`). -/
structure LoadResult where
  db : DB
  msgs : List String
  sqls : List String
  connOpened : Bool
  ret : Option Report
deriving DecidableEq, Repr

/-- Target table name (src/msft.py line 105). -/
def target_table : String :=
  "stock.msft.stock_price"

/-- The `CREATE OR REPLACE TABLE` statement text (src/msft.py lines 109-119). -/
def createTableSQL : String :=
  "\n        CREATE OR REPLACE TABLE " ++ target_table ++
  " (\n          date DATE PRIMARY KEY,\n          symbol VARCHAR,\n          open NUMBER,\n          high NUMBER,\n          low NUMBER,\n          close NUMBER,\n          volume NUMBER\n        )\n        "

/-- The per-record `INSERT` statement text built by the f-string at
src/msft.py lines 134-137.  The record's field values are interpolated
directly into the SQL text; `cur.execute(sql)` is called with no bound
parameters.  `\x27` is the single-quote character of the SQL text. -/
def buildInsertSQL (r : PriceData) : String :=
  "\n            INSERT INTO " ++ target_table ++
  " (date, symbol, open, high, low, close, volume)\n            VALUES (TO_DATE(\x27" ++
  r.date ++ "\x27, \x27YYYY-MM-DD\x27), \x27" ++ r.symbol ++ "\x27, " ++
  r.opn ++ ", " ++ r.high ++ ", " ++ r.low ++ ", " ++ r.close ++ ", " ++
  r.volume ++ ")\n            "

/-- The per-record progress print (src/msft.py line 131); `\x27` is the
single-quote character around the symbol. -/
def insertMsg (r : PriceData) : String :=
  "Inserting data for " ++ r.date ++ ": Open=" ++ r.opn ++ ", Symbol=\x27" ++
  r.symbol ++ "\x27, High=" ++ r.high ++ ", Low=" ++ r.low ++ ", Close=" ++
  r.close ++ ", Volume=" ++ r.volume

/-- The success print (src/msft.py line 141). -/
def successMsg (n : Nat) : String :=
  "Successfully loaded " ++ toString n ++ " records into " ++ target_table ++ "."

/-- The except-branch print (src/msft.py line 145), where `e` is the message
of the caught exception. -/
def errorMsg (e : String) : String :=
  "Error loading data into Snowflake: " ++ e

/-- Outcome of the insert loop (src/msft.py lines 122-138): warehouse state,
prints, statements sent, and the message of the raised exception, if any. -/
structure InsRes where
  db : DB
  msgs : List String
  sqls : List String
  err : Option String
deriving DecidableEq, Repr

/-- The insert loop of src/msft.py lines 122-138, starting at record index
`i`.  `fails` is the fault model: `fails i = some e` means `cur.execute` of
the `i`-th insert raises an exception with message `e` (leaving the staged
rows as they were), `none` means it succeeds.  The progress print happens
before the execute, so the failing insert is still announced. -/
def runInserts (fails : Nat → Option String) : Nat → DB → List PriceData → InsRes
  | _, db, [] => ⟨db, [], [], none⟩
  | i, db, r :: rest =>
    match fails i with
    | some e => ⟨db, [insertMsg r], [buildInsertSQL r], some e⟩
    | none =>
      let res := runInserts fails (i + 1) (insertRow r db) rest
      ⟨res.db, insertMsg r :: res.msgs, buildInsertSQL r :: res.sqls, res.err⟩

/-- Message of the first exception the insert loop would raise on `records`
starting at index `i`, if any. -/
def firstErr (fails : Nat → Option String) : Nat → List PriceData → Option String
  | _, [] => none
  | i, _ :: rest =>
    match fails i with
    | some e => some e
    | none => firstErr fails (i + 1) rest

/-- Task 4, `load` (src/msft.py lines 92-148).  `createFails` and `fails` are
the fault model for `cur.execute` of the `CREATE OR REPLACE TABLE` statement
resp. of each insert (`some e`: raises an exception with message `e`).
Faithful control flow: an empty `records` returns at once, before any
connection is acquired (lines 95-97); otherwise the connection and cursor are
opened, the table is created-or-replaced, the records are inserted in order,
and `conn.commit()` runs on full success while any exception is caught by the
`except` block, which calls `conn.rollback()`, prints the error, and falls
through — the exception is not re-raised, and the function returns `None` on
every path.  The `finally` block closes the cursor and connection (no effect
on table state). -/
def load (createFails : Option String) (fails : Nat → Option String)
    (records : List PriceData) (db : DB) : LoadResult :=
  match records with
  | [] => ⟨db, ["No records to load."], [], false, none⟩
  | r :: rs =>
    match createFails with
    | some e => ⟨rollbackOp db, [errorMsg e], [createTableSQL], true, none⟩
    | none =>
      let res := runInserts fails 0 (createOrReplaceTable db) (r :: rs)
      match res.err with
      | none =>
        ⟨commitOp res.db, res.msgs ++ [successMsg (r :: rs).length],
          createTableSQL :: res.sqls, true, none⟩
      | some e =>
        ⟨rollbackOp res.db, res.msgs ++ [errorMsg e],
          createTableSQL :: res.sqls, true, none⟩

/-- The DAG wiring at src/msft.py lines 151-155: `transform` consumes the
output of `return_last_90d_price` and `load` consumes the output of
`transform`.  The output of `extract` (line 152) is bound to `stock_data` and
never consumed by any downstream task, so the downstream chain is a function
of the filter task's own fetch only; if the filter raises, `transform` and
`load` are not invoked. -/
def pipelineDownstream (dataF : ApiData) (today : Int) (createFails : Option String)
    (fails : Nat → Option String) (db : DB) : Except String LoadResult :=
  (return_last_90d_price "MSFT" dataF today).map
    (fun recs => load createFails fails (transform recs) db)

/-- Message of the exception that the try-block of `load` raises first on a
non-empty batch, if any: a table-creation failure pre-empts the insert loop. -/
def loadFirstError (createFails : Option String) (fails : Nat → Option String)
    (records : List PriceData) : Option String :=
  match createFails with
  | some e => some e
  | none => firstErr fails 0 records

/-! Concrete fixtures used by witnesses and counterexamples.  `bar0` is the
series entry of the spec's end-to-end scenarios. -/

/-- The OHLCV entry of the spec's end-to-end scenarios. -/
def bar0 : DailyRaw :=
  { opn := "10", high := "12", low := "9", close := "11", volume := "1000" }

/-- The record produced for `bar0` dated 2024-01-10. -/
def rec0 : PriceData :=
  mkPriceData "2024-01-10" bar0 "MSFT"

/-- A second record, dated 2024-01-11. -/
def recB : PriceData :=
  mkPriceData "2024-01-11" bar0 "MSFT"

/-- A row already in the warehouse before a load, dated 2023-12-31. -/
def recPre : PriceData :=
  mkPriceData "2023-12-31" bar0 "MSFT"

/-- A warehouse whose target table exists and holds `recPre`, no transaction
open. -/
def dbPre : DB :=
  { committed := some [recPre], pending := some [recPre] }

/-- A warehouse where the target table does not exist yet. -/
def dbEmpty : DB :=
  { committed := none, pending := none }

/-- A fault model where the insert at index 1 (the second insert) raises. -/
def failOn1 : Nat → Option String :=
  fun i => if i == 1 then some "insert 2 of 2 failed" else none

/-- A fault-free insert model. -/
def noFail : Nat → Option String :=
  fun _ => none

/-- The API payload of the spec's end-to-end scenario 1. -/
def apiData0 : ApiData :=
  { tsDaily := some [("2024-01-10", bar0)] }

/-- A record whose `opn` field is not numeric. -/
def badRec : PriceData :=
  { date := "2024-01-10", opn := "abc", high := "12", low := "9",
    close := "11", volume := "1000", symbol := "MSFT" }

/-- Midnight of 2024-02-01 in microseconds. -/
def T0 : Int :=
  (toOrdinal 2024 2 1 : Int) * USEC_PER_DAY

/-- Noon of 2024-02-01 in microseconds: a typical `datetime.today()` value
whose calendar day is 2024-02-01. -/
def T0noon : Int :=
  T0 + 43200000000

/-! Helper lemmas shared by the claim theorems. -/

theorem foldl_append_eq {α : Type} (l acc : List α) :
    l.foldl (fun a e => a ++ [e]) acc = acc ++ l := by
  induction l generalizing acc with
  | nil => simp
  | cons x xs ih => simp [List.foldl_cons, ih]

theorem transform_eq {α : Type} (l : List α) : transform l = l := by
  simpa using foldl_append_eq l []

theorem filterGo_eq (symbol : String) (cutoff : Int) (l : List (String × DailyRaw))
    (h : ∀ p ∈ l, (parseDate p.1).isSome = true) :
    filterGo symbol cutoff l =
      .ok ((l.filter (windowKeep cutoff)).map (fun p => mkPriceData p.1 p.2 symbol)) := by
  induction l with
  | nil => rfl
  | cons p rest ih =>
    obtain ⟨d, bar⟩ := p
    have hd : (parseDate d).isSome = true := h _ (List.mem_cons_self _ _)
    obtain ⟨n, hn⟩ := Option.isSome_iff_exists.mp hd
    have hrest : ∀ p ∈ rest, (parseDate p.1).isSome = true :=
      fun p hp => h p (List.mem_cons_of_mem _ hp)
    by_cases hc : (n : Int) * USEC_PER_DAY ≥ cutoff
    · simp [filterGo, hn, hc, ih hrest, windowKeep, List.filter_cons, Except.map]
    · simp [filterGo, hn, hc, ih hrest, windowKeep, List.filter_cons, Except.map]

theorem runInserts_err_eq (fails : Nat → Option String) (i : Nat) (db : DB)
    (l : List PriceData) :
    (runInserts fails i db l).err = firstErr fails i l := by
  induction l generalizing i db with
  | nil => rfl
  | cons r rest ih =>
    simp only [runInserts, firstErr]
    cases fails i with
    | some e => rfl
    | none => simpa using ih (i + 1) (insertRow r db)


/-! Claim C1 — the 90-day window filter. -/

/-- C1 counterexample: with `datetime.today()` at noon of 2024-02-01, the bar
dated 2023-11-03 — exactly `R - 90` days at calendar granularity, hence inside
the claimed inclusive window `[R-90d, R]` — is omitted, because the code
compares midnight of the bar's date against `today - 90 days` with the
time-of-day component intact; and the bar dated 2024-03-01, outside the
claimed window (it is after `R`), is emitted, because the code has no upper
bound. -/
theorem C1_counterexample :
    parseDate "2023-11-03" = some (toOrdinal 2024 2 1 - 90) ∧
    return_last_90d_price "MSFT" ⟨some [("2023-11-03", bar0)]⟩ T0noon = .ok [] ∧
    toOrdinal 2024 2 1 < toOrdinal 2024 3 1 ∧
    return_last_90d_price "MSFT" ⟨some [("2024-03-01", bar0)]⟩ T0noon =
      .ok [mkPriceData "2024-03-01" bar0 "MSFT"] := by
  decide

/-- C1 (amended): when every date key of the series parses,
`return_last_90d_price` emits exactly the bars whose parsed date, taken at
midnight, is `>= today - 90 days`, where `today` is the full
`datetime.today()` timestamp with its time-of-day component — so a bar dated
exactly 90 calendar days before the reference date is dropped whenever the
reference time is past midnight, and there is no upper bound, so dates after
the reference date are emitted — in series order, tagged with the symbol. -/
theorem C1_window_amended (symbol : String) (data : ApiData) (today : Int)
    (h : ∀ p ∈ data.tsDaily.getD [], (parseDate p.1).isSome = true) :
    return_last_90d_price symbol data today =
      .ok (((data.tsDaily.getD []).filter (windowKeep (today - 90 * USEC_PER_DAY))).map
        (fun p => mkPriceData p.1 p.2 symbol)) :=
  filterGo_eq symbol _ _ h

/-- C1 witness: the amended window theorem applied to the spec's scenario-1
payload at midnight 2024-02-01; the filter output evaluates to the single
record `rec0`. -/
theorem C1_window_amended_witness :
    (∀ p ∈ apiData0.tsDaily.getD [], (parseDate p.1).isSome = true) ∧
    return_last_90d_price "MSFT" apiData0 T0 =
      .ok (((apiData0.tsDaily.getD []).filter (windowKeep (T0 - 90 * USEC_PER_DAY))).map
        (fun p => mkPriceData p.1 p.2 "MSFT")) ∧
    return_last_90d_price "MSFT" apiData0 T0 = .ok [rec0] :=
  ⟨by decide, C1_window_amended "MSFT" apiData0 T0 (by decide), by decide⟩

/-! Claim C2 — all-or-nothing batch semantics of the loader. -/

/-- C2: pre-load the table holds `recPre`; loading the batch `[rec0, recB]`
with the second insert failing leaves the table existing but empty — the
`conn.rollback()` discards the staged first insert, but the
`CREATE OR REPLACE TABLE` step (DDL, implicitly committed by the warehouse)
has already dropped the pre-load contents, so the table state is NOT the
pre-load state, contradicting the claim that no mutation from the
table-creation step is visible after a failed batch. -/
theorem C2_create_or_replace_loss :
    dbPre.committed = some [recPre] ∧
    (load none failOn1 [rec0, recB] dbPre).db = ⟨some [], some []⟩ ∧
    (load none failOn1 [rec0, recB] dbPre).db ≠ dbPre ∧
    (load none failOn1 [rec0, recB] dbPre).ret = none := by
  decide

/-! Claim C3 — surfacing of load failures. -/

/-- C3 counterexample: with the second insert of `[rec0, recB]` failing,
`load` returns normally — its Python return value is `None` (`ret = none`),
no exception reaches the caller — and the failure is only printed as the last
message of the run. -/
theorem C3_counterexample :
    (load none failOn1 [rec0, recB] dbPre).ret = none ∧
    (load none failOn1 [rec0, recB] dbPre).msgs =
      [insertMsg rec0, insertMsg recB, errorMsg "insert 2 of 2 failed"] := by
  decide

/-- C3 (amended): on any warehouse failure during table creation or any
insert of a non-empty batch, `load` catches the exception, prints
`Error loading data into Snowflake: <e>` as its last message, and returns
`None` to its caller; no `LoadError` (no such class exists in the code) nor
any other exception propagates to the scheduler. -/
theorem C3_amended_swallow (createFails : Option String) (fails : Nat → Option String)
    (records : List PriceData) (db : DB) (e : String)
    (hne : records ≠ [])
    (he : loadFirstError createFails fails records = some e) :
    (load createFails fails records db).msgs.getLast? = some (errorMsg e) ∧
    (load createFails fails records db).ret = none := by
  cases records with
  | nil => exact absurd rfl hne
  | cons r rs =>
    cases createFails with
    | some e0 =>
      obtain rfl : e0 = e := by simpa [loadFirstError] using he
      exact ⟨rfl, rfl⟩
    | none =>
      have herr : (runInserts fails 0 (createOrReplaceTable db) (r :: rs)).err = some e := by
        rw [runInserts_err_eq]
        simpa [loadFirstError] using he
      simp only [load]
      rw [herr]
      exact ⟨List.getLast?_concat _, rfl⟩

/-- C3 witness: the amended swallow theorem applied to a batch of one record
whose table-creation step fails with message `boom`. -/
theorem C3_amended_swallow_witness :
    ([rec0] ≠ ([] : List PriceData)) ∧
    loadFirstError (some "boom") noFail [rec0] = some "boom" ∧
    ((load (some "boom") noFail [rec0] dbPre).msgs.getLast? = some (errorMsg "boom") ∧
      (load (some "boom") noFail [rec0] dbPre).ret = none) :=
  ⟨by decide, by decide,
    C3_amended_swallow (some "boom") noFail [rec0] dbPre "boom" (by decide) (by decide)⟩

/-! Claim C4 — parameterized inserts. -/

/-- C4: the two inserts of the batch `[rec0, recB]` are sent as two SQL texts
that differ from each other (the records' values are interpolated into the
statement text by the f-string of src/msft.py lines 134-137, and no
parameters are bound), contradicting the claim that the statement text is
identical for any two records; the full text sent for `rec0` embeds its raw
field values (`\x27` is the single-quote character). -/
theorem C4_sql_interpolation :
    (load none noFail [rec0, recB] dbEmpty).sqls =
      [createTableSQL, buildInsertSQL rec0, buildInsertSQL recB] ∧
    buildInsertSQL rec0 ≠ buildInsertSQL recB ∧
    buildInsertSQL rec0 =
      "\n            INSERT INTO stock.msft.stock_price (date, symbol, open, high, low, close, volume)\n            VALUES (TO_DATE(\x272024-01-10\x27, \x27YYYY-MM-DD\x27), \x27MSFT\x27, 10, 12, 9, 11, 1000)\n            " := by
  decide

/-! Claim C5 — numeric coercion in the transform stage. -/

/-- C5 counterexample: `badRec` carries the non-numeric open-price string
`abc`, yet `transform` returns it unchanged and raises nothing — there is no
coercion and no `ValidationError` (no such class exists in the code). -/
theorem C5_counterexample :
    transform [badRec] = [badRec] ∧ badRec.opn = "abc" := by
  decide

/-- C5 (amended): `transform` performs no numeric coercion and never raises:
it returns every input sequence unchanged, the OHLCV fields still being the
same strings. -/
theorem C5_amended_passthrough (l : List PriceData) :
    transform l = l ∧ (transform l).map PriceData.opn = l.map PriceData.opn := by
  have h := transform_eq l
  exact ⟨h, by rw [h]⟩

/-! Claim C6 — handling of unparseable date keys. -/

/-- C6 counterexample: the series holds the unparseable key `bad-date`
followed by the valid key `2024-01-10`; the filter raises on the first key
(`ValueError` from `strptime`, modelled as `.error`), so the valid remaining
key is never processed and the run does not return normally. -/
theorem C6_counterexample :
    (parseDate "2024-01-10").isSome = true ∧
    return_last_90d_price "MSFT" ⟨some [("bad-date", bar0), ("2024-01-10", bar0)]⟩ T0 =
      .error "bad-date" := by
  decide

/-- C6 (amended): a date key that does not parse as `%Y-%m-%d` makes
`datetime.strptime` raise: the whole run aborts at the first invalid key —
invalid keys are fatal, not skipped. -/
theorem C6_amended_fatal (symbol d : String) (bar : DailyRaw)
    (rest : List (String × DailyRaw)) (today : Int)
    (h : parseDate d = none) :
    return_last_90d_price symbol ⟨some ((d, bar) :: rest)⟩ today = .error d := by
  simp [return_last_90d_price, filterGo, h]

/-- C6 witness: the amended fatality theorem applied to the key
`not-a-date`. -/
theorem C6_amended_fatal_witness :
    parseDate "not-a-date" = none ∧
    return_last_90d_price "MSFT" ⟨some [("not-a-date", bar0)]⟩ T0 = .error "not-a-date" :=
  ⟨by decide, C6_amended_fatal "MSFT" "not-a-date" bar0 [] T0 (by decide)⟩

/-! Claim C7 — load on an empty batch. -/

/-- C7 counterexample: on an empty batch `load` indeed performs zero inserts,
acquires no connection, creates no table, leaves the warehouse untouched and
does not raise — but it returns `None` (after printing `No records to
load.`), not a report with `rowsLoaded = 0`: no `Report` value is ever
returned. -/
theorem C7_counterexample :
    (load none noFail [] dbPre).ret = none ∧
    (load none noFail [] dbPre).msgs = ["No records to load."] ∧
    (load none noFail [] dbPre).connOpened = false ∧
    (load none noFail [] dbPre).sqls = [] ∧
    (load none noFail [] dbPre).db = dbPre ∧
    ∀ rep : Report, (load none noFail [] dbPre).ret ≠ some rep := by
  refine ⟨by decide, by decide, by decide, by decide, by decide, ?_⟩
  intro rep h
  exact Option.noConfusion h

/-- C7 (amended): given an empty record sequence, `load` executes no SQL at
all, acquires no connection, leaves the warehouse state unchanged, does not
raise, prints `No records to load.` and returns `None` — no report object is
produced. -/
theorem C7_amended_empty (createFails : Option String) (fails : Nat → Option String)
    (db : DB) :
    load createFails fails [] db = ⟨db, ["No records to load."], [], false, none⟩ :=
  rfl

/-! Claim C8 — fetch behaviour on non-2xx responses. -/

/-- C8 counterexample: a response with HTTP status 500 whose body is valid
JSON makes `extract` return that data normally — no `ExternalServiceError`
(no such class exists, and the code never consults the status) — and the
downstream chain, which consumes the filter task's own fetch rather than
`extract`'s output, still produces a load. -/
theorem C8_counterexample :
    extract ⟨500, .ok apiData0⟩ = .ok apiData0 ∧
    (pipelineDownstream apiData0 T0 none noFail dbEmpty).toOption.isSome = true :=
  ⟨rfl, by decide⟩

/-- C8 (amended): `extract` never inspects the HTTP status code: its result
is exactly the outcome of parsing the body as JSON, so two responses with the
same body and arbitrary different statuses — 2xx or not — yield the same
result. -/
theorem C8_amended_status_independent (s1 s2 : Nat) (b : Except String ApiData) :
    extract ⟨s1, b⟩ = extract ⟨s2, b⟩ :=
  rfl

/-! Claims C9 and C10 — algebraic properties of the transform stage. -/

/-- C9: `transform` is idempotent — applying it twice equals applying it
once, for every input sequence (well-formed or not). -/
theorem C9_transform_idempotent {α : Type} (l : List α) :
    transform (transform l) = transform l := by
  simp [transform_eq]

/-- C10: `transform` is the identity on its input: it returns exactly the
same elements in the same order, performing no coercion, filtering or
modification. -/
theorem C10_transform_identity {α : Type} (l : List α) :
    transform l = l :=
  transform_eq l
